import Mathlib

/-!
# Verification of the Cronos search core

A shallow embedding of the search core of the `discordlist-gg/Cronos`
repository (bot/pack listing search service built on tantivy), together
with theorems settling the frozen claims about its specification.

Conventions of the embedding:

* tantivy `Field` handles are modelled by their field names (`String`);
  a `Schema` is the list of declared field names.
* An indexed document is the list of its indexed terms, each a pair of
  a field name and a term value, together with its fast-field values.
* Relevance scores (`tantivy::Score`, an `f32` produced by BM25) are
  modelled as rationals supplied by the searcher state: they are produced
  by the external library, not by repository code, so the embedding
  treats them as an oracle attached to each document.
* Machine integers (`i64` snowflake ids, `u64` bitfields) are modelled as
  `Int` / `Nat`; no arithmetic in the modelled code paths can overflow.
* Rust panics (`unwrap` on `None`, out-of-bounds indexing) are modelled
  by `Option`, `none` marking the panic.
-/

namespace Cronos

/-- A term value as stored in the inverted index: text terms for
tokenized/raw text fields, `u64` and `i64` terms for integer fields. -/
inductive TermValue where
  | text (s : String)
  | u64 (n : Nat)
  | i64 (n : Int)
deriving DecidableEq, Repr

/-- `tantivy::query::Occur` restricted to the two variants the repository
uses (`MustNot` never occurs in this code base). -/
inductive Occur where
  | must
  | should
deriving DecidableEq, Repr

/-- Damerau–Levenshtein (optimal string alignment) recursion, structural
on a fuel argument so that it evaluates by kernel reduction.  Any fuel of
at least `xs.length + ys.length` reaches only the genuine base cases. -/
def dlevFuel : Nat → List Char → List Char → Nat
  | 0, xs, ys => xs.length + ys.length
  | _ + 1, [], ys => ys.length
  | _ + 1, x :: xs, [] => (x :: xs).length
  | fuel + 1, x :: xs, y :: ys =>
    let sub := dlevFuel fuel xs ys
    let del := dlevFuel fuel xs (y :: ys)
    let ins := dlevFuel fuel (x :: xs) ys
    let base := if x = y then sub else 1 + min sub (min del ins)
    match xs, ys with
    | x2 :: xs2, y2 :: ys2 =>
      if x = y2 ∧ x2 = y ∧ x ≠ y then
        min base (1 + dlevFuel fuel xs2 ys2)
      else base
    | _, _ => base

/-- Damerau–Levenshtein (optimal string alignment) distance between two
character lists.  `FuzzyTermQuery::new_prefix(term, dist, true)` in
`src/search/queries.rs` enables transposition cost one, which is this
distance. -/
def dlev (xs ys : List Char) : Nat :=
  dlevFuel (xs.length + ys.length) xs ys

/-- Prefix fuzzy matching: an indexed term `t` matches query text `q` at
distance `d` when some leading part of `t` is within distance `d` of `q`.
This is the acceptance condition of the prefix Levenshtein automaton that
`FuzzyTermQuery::new_prefix` compiles. -/
def fuzzyMatchesTerm (d : Nat) (q : String) (t : String) : Bool :=
  (List.range (t.length + 1)).any fun n => dlev q.toList (t.toList.take n) ≤ d

/-- The query ASTs the repository builds (`src/search/queries.rs`,
`apply_filter` in the readers).  `all` is the wildcard all-documents
query; `boost` records the per-field-group `BoostQuery` factor. -/
inductive Query where
  | all
  | term (field : String) (value : TermValue)
  | fuzzy (field : String) (text : String) (dist : Nat)
  | boost (inner : Query) (factor : ℚ)
  | boolean (clauses : List (Occur × Query))
deriving Repr

/-- A document as seen by a searcher snapshot: its address, the stored
`id`, the fast-field values the collectors read, its indexed terms, and
its oracle relevance score (BM25 is external to the repository). -/
structure SDoc where
  addr : Nat
  storedId : Int
  fastFeatures : Nat
  terms : List (String × TermValue)
  score : ℚ
deriving DecidableEq, Repr

mutual

/-- Evaluation of a query against one document, following tantivy's
boolean semantics: all `Must` clauses are required; `Should` clauses are
only required (at least one) when no `Must` clause is present; an empty
`BooleanQuery` matches nothing. -/
def evalQuery (d : SDoc) : Query → Bool
  | .all => true
  | .term f v => d.terms.contains (f, v)
  | .fuzzy f q dist =>
    d.terms.any fun t =>
      t.1 = f && match t.2 with
                 | .text s => fuzzyMatchesTerm dist q s
                 | _ => false
  | .boost q _ => evalQuery d q
  | .boolean cs =>
    if hasMust cs then evalMusts d cs else evalShoulds d cs

/-- `true` when some clause of the list carries `Occur::Must`. -/
def hasMust : List (Occur × Query) → Bool
  | [] => false
  | (occ, _) :: rest => occ = Occur.must || hasMust rest

/-- All `Must` clauses of the list hold of the document. -/
def evalMusts (d : SDoc) : List (Occur × Query) → Bool
  | [] => true
  | (occ, q) :: rest =>
    (if occ = Occur.must then evalQuery d q else true) && evalMusts d rest

/-- Some `Should` clause of the list holds of the document. -/
def evalShoulds (d : SDoc) : List (Occur × Query) → Bool
  | [] => false
  | (occ, q) :: rest =>
    (occ = Occur.should && evalQuery d q) || evalShoulds d rest

end

/-! ## Tokenizer and query planner (`src/search/queries.rs`) -/

/-- Modelled from the spec: `src/search/tokenizer.rs` is missing from the
source tree (it is declared in `src/search/mod.rs` and used by
`queries.rs`).  Spec §4.1: a unicode word-segmenting tokenizer that
lowercases tokens and rejects any token whose character length exceeds
the cap (query-time cap 10).  Word segmentation is modelled as splitting
on non-alphanumeric characters. -/
def tokenize (cap : Nat) (s : String) : List String :=
  ((((s.toList.map Char.toLower).splitOnP fun c => !c.isAlphanum).filter
    fun w => !w.isEmpty && w.length ≤ cap).map List.asString)

/-- The tokens a stage keeps: `build_fuzzy_stage` skips a token when
`token.text.len() < length_cut_off` (`len()` is the Rust byte length). -/
def survivors (cutoff : Nat) (tokens : List String) : List String :=
  tokens.filter fun t => cutoff ≤ t.utf8ByteSize

/-- The SHOULD clause list built for one field of a stage: one prefix
`FuzzyTermQuery` per surviving token. -/
def fieldGroup (dist : Nat) (f : String) (toks : List String) :
    List (Occur × Query) :=
  toks.map fun t => (Occur.should, Query.fuzzy f t dist)

/-- `build_fuzzy_stage(dist, length_cut_off, fields, token_stream)`.
The outer `none` models the `stage[0]` out-of-bounds panic that the code
hits when `fields` is empty; the inner `none` models the `None` return
(stage omitted) when no token survives the length cut.  The `f32` boost
factor, which starts at `1.0` and is decremented by `0.10` after each
field group, is modelled exactly in `ℚ`. -/
def buildFuzzyStage (dist cutoff : Nat) (fields tokens : List String) :
    Option (Option Query) :=
  if fields.isEmpty then none
  else
    let surv := survivors cutoff tokens
    if surv.isEmpty then some none
    else
      some (some (Query.boolean (fields.enum.map fun p =>
        (Occur.should,
          Query.boost (Query.boolean (fieldGroup dist p.2 surv))
            (1 - p.1 * (1 / 10 : ℚ))))))

/-- `parse_query(query, fields)`: the three candidate stages at edit
distances 0, 1, 2 with length cuts 0, 4, 8, pushed only when present
(`add_if_exists!`).  `none` models a panic inside `build_fuzzy_stage`. -/
def parseQuery (q : String) (fields : List String) : Option (List Query) := do
  let tokens := tokenize 10 q
  let s0 ← buildFuzzyStage 0 0 fields tokens
  let s1 ← buildFuzzyStage 1 4 fields tokens
  let s2 ← buildFuzzyStage 2 8 fields tokens
  pure ([s0, s1, s2].filterMap id)

/-- The query plan exactly as claim C5 words it: stages in order of edit
distance 0, 1, 2; a token contributes to the distance-1 stage only if its
length is at least 4 and to the distance-2 stage only if its length is at
least 8; within a stage, field `i`'s clauses are prefix fuzzy term
queries combined as SHOULD and boosted by `1.0 − 0.10·i`; the field
groups are combined SHOULD; a stage with no surviving tokens is omitted;
an empty token stream yields no stages. -/
def plannerSpecStage (dist cutoff : Nat) (fields tokens : List String) :
    Option Query :=
  let toks := tokens.filter fun t => cutoff ≤ t.utf8ByteSize
  if toks.isEmpty then none
  else
    some (Query.boolean (fields.enum.map fun p =>
      (Occur.should,
        Query.boost
          (Query.boolean (toks.map fun t =>
            (Occur.should, Query.fuzzy p.2 t dist)))
          (1 - p.1 * (1 / 10 : ℚ)))))

/-- The full plan of claim C5: the three stages `(0,0)`, `(1,4)`,
`(2,8)` in order, omitted stages dropped. -/
def plannerSpec (q : String) (fields : List String) : List Query :=
  ([(0, 0), (1, 4), (2, 8)] : List (Nat × Nat)).filterMap fun sc =>
    plannerSpecStage sc.1 sc.2 fields (tokenize 10 q)

/-! ## Data model (`src/models/bots.rs`, `src/models/packs.rs`) -/

/-- The authoritative bot row (`struct Bot` in `src/models/bots.rs`).
`JsSafeBigInt`/`JsSafeInt` are `i64`/`i32` wrappers, modelled as `Int`;
`Timestamp` is modelled by its unix value; the `prefix` field is renamed
`pref` because its source name is a Lean keyword. -/
structure Bot where
  id : Int
  username : String
  avatar : Option String
  discriminator : Int
  pref : Option String
  is_packable : Bool
  slug : Option String
  flags : Int
  features : Int
  invite_url : String
  tags : List String
  created_on : Int
  is_hidden : Bool
  is_forced_into_hiding : Bool
  owner_id : Int
  co_owner_ids : List Int
  guild_count : Option Int
  brief_description : String
deriving DecidableEq, Repr

/-- `flags::PREMIUM = 1 << 0` (`src/models/bots.rs`). -/
def PREMIUM : Int := 1

/-- `(flags & PREMIUM) != 0` on a two's-complement `i64`: the low bit,
i.e. oddness of the integer value. -/
def premiumBit (flags : Int) : Bool := flags % 2 ≠ 0

/-- The authoritative pack row (`struct Pack` in `src/models/packs.rs`). -/
structure Pack where
  id : Int
  name : String
  description : String
  created_on : Int
  tag : String
  bots : List Int
  is_hidden : Bool
  is_forced_into_hiding : Bool
  owner_id : Int
deriving DecidableEq, Repr

/-- The process-wide per-bot state the pure lookup helpers read: the
live row cache `LIVE_DATA`, the vote map `VOTE_INFO` (current votes) and
the trending map `TRENDING_DATA` (an `f64` score, modelled in `ℚ`). -/
structure BotState where
  live : List (Int × Bot)
  votes : List (Int × Nat)
  trending : List (Int × ℚ)

/-- `get_bot_data(id)`: lookup in the live row cache. -/
def get_bot_data (st : BotState) (id : Int) : Option Bot :=
  (st.live.find? fun p => p.1 = id).map Prod.snd

/-- `is_hidden(id)` in `src/models/bots.rs`: a present row counts as
hidden when it is not packable or carries a hiding flag; an absent row
yields the `bool` default `false` (`unwrap_or_default`). -/
def is_hidden (st : BotState) (id : Int) : Bool :=
  match get_bot_data st id with
  | some v => !v.is_packable || v.is_hidden || v.is_forced_into_hiding
  | none => false

/-- `update_live_data(bot)`: unconditional insert into the live cache
(no hidden-row check). -/
def update_live_data (st : BotState) (bot : Bot) : BotState :=
  { st with live := (bot.id, bot) :: st.live.filter fun p => p.1 ≠ bot.id }

/-- `remove_bot_from_live(bot_id)`. -/
def remove_bot_from_live (st : BotState) (id : Int) : BotState :=
  { st with live := st.live.filter fun p => p.1 ≠ id }

/-- `get_bot_votes(bot_id)`: current votes, defaulting to 0. -/
def get_bot_votes (st : BotState) (id : Int) : Nat :=
  ((st.votes.find? fun p => p.1 = id).map Prod.snd).getD 0

/-- `get_bot_premium(bot_id)`: the premium bit of the live row's `flags`,
defaulting to `false` when the row is absent. -/
def get_bot_premium (st : BotState) (id : Int) : Bool :=
  ((get_bot_data st id).map fun b => premiumBit b.flags).getD false

/-- `get_bot_trending_score(bot_id)`, defaulting to 0. -/
def get_bot_trending_score (st : BotState) (id : Int) : ℚ :=
  ((st.trending.find? fun p => p.1 = id).map Prod.snd).getD 0

/-- `get_bot_guild_count(bot_id)`: the live row's `guild_count` with both
`Option` layers defaulted to 0. -/
def get_bot_guild_count (st : BotState) (id : Int) : Int :=
  ((get_bot_data st id).map fun b => b.guild_count.getD 0).getD 0

/-- The per-pack process-wide state (`src/models/packs.rs`). -/
structure PackState where
  live : List (Int × Pack)
  votes : List (Int × Nat)
  trending : List (Int × ℚ)

/-- `get_pack_data(id)`. -/
def get_pack_data (pst : PackState) (id : Int) : Option Pack :=
  (pst.live.find? fun p => p.1 = id).map Prod.snd

/-- `get_pack_bot_count(pack_id)` (`src/models/packs.rs`): the number of
member ids for which `is_hidden` is `false`; 0 when the pack row itself
is absent. -/
def get_pack_bot_count (pst : PackState) (st : BotState) (pack_id : Int) : Nat :=
  ((get_pack_data pst pack_id).map fun p =>
    (p.bots.filter fun id => !is_hidden st id).length).getD 0

/-! ## Public hit shapes (`src/routes/bots.rs`, `src/routes/packs.rs`) -/

/-- The public `BotHit` response shape (`src/routes/bots.rs`). -/
structure BotHit where
  id : Int
  username : String
  avatar : Option String
  discriminator : Int
  pref : Option String
  flags : Int
  features : Int
  tags : List String
  created_on : Int
  owner_id : Int
  co_owner_ids : List Int
  guild_count : Option Int
  brief_description : String
  votes : Int
  invite_url : String
deriving DecidableEq, Repr

/-- `impl From<Bot> for BotHit` (`src/routes/bots.rs`), field for field:
note that the hit's `flags` field is populated from `bot.features`. -/
def botHitFrom (st : BotState) (bot : Bot) : BotHit :=
  { id := bot.id
    username := bot.username
    avatar := bot.avatar
    discriminator := bot.discriminator
    pref := bot.pref
    flags := bot.features
    features := bot.features
    tags := bot.tags
    created_on := bot.created_on
    owner_id := bot.owner_id
    co_owner_ids := bot.co_owner_ids
    guild_count := bot.guild_count
    brief_description := bot.brief_description
    votes := Int.ofNat (get_bot_votes st bot.id)
    invite_url := bot.invite_url }

/-- The hydrated member list of a `PackHit`
(`PackHit::from_doc` in `src/routes/packs.rs`): members are looked up in
the bot live cache, dropped when absent, filtered by `is_packable` only,
and mapped through `BotHit::from`. -/
def packHitBots (st : BotState) (pack : Pack) : List BotHit :=
  (((pack.bots.filterMap (get_bot_data st)).filter
    fun b => b.is_packable).map (botHitFrom st))

/-! ## Schema and document construction
(`src/search/index_impls/bots.rs`, `Bot::as_tantivy_doc`) -/

/-- A tantivy `Schema` modelled as the list of its declared field names;
`get_field` returns the handle (here: the name) or `None`. -/
abbrev Schema := List String

/-- `Schema::get_field`. -/
def getField (schema : Schema) (name : String) : Option String :=
  if name ∈ schema then some name else none

def ID_FIELD : String := "id"
def PREMIUM_FIELD : String := "premium"
def FEATURES_FIELD : String := "features"
def USERNAME_FIELD : String := "username"
def DESCRIPTION_FIELD : String := "brief_description"
def TAGS_FIELD : String := "tags"

/-- Modelled from the spec: the constant `TAGS_AGG_FIELD` is imported
from `index_impls::bots` by `models/bots.rs` and `readers/bots.rs` but
its definition is missing from the source tree; spec §3 names the bots
aggregation field `tags_agg`. -/
def TAGS_AGG_FIELD : String := "tags_agg"

def NAME_FIELD : String := "name"
def PACK_DESCRIPTION_FIELD : String := "description"
def TAG_FIELD : String := "tag"
def TAG_AGG_FIELD : String := "tag_agg"

/-- `default_schema()` in `src/search/index_impls/bots.rs`: the six
fields actually added by the builder, in order.  There is no
`tags_agg` field. -/
def default_schema : Schema :=
  [ID_FIELD, FEATURES_FIELD, PREMIUM_FIELD, USERNAME_FIELD,
   DESCRIPTION_FIELD, TAGS_FIELD]

/-- Modelled from the spec: the bot index schema as spec §3 declares it —
`default_schema` extended with the raw-tokenized `tags_agg` aggregation
field.  Used to model the document-construction pipeline for the claims
that are not about the missing-field panic itself. -/
def spec_schema : Schema := default_schema ++ [TAGS_AGG_FIELD]

/-- A tantivy `Document`: the list of its (field, value) pairs in the
order the `add_*` calls append them. -/
abbrev Document := List (String × TermValue)

/-- `Bot::as_tantivy_doc` (`src/models/bots.rs`): every `get_field` call
is `unwrap`ped, so a missing field makes the function panic (`none`).
`*self.features as u64` reinterprets the `i64` bit pattern, modelled by
`emod 2^64`. -/
def asTantivyDoc (b : Bot) (schema : Schema) : Option Document := do
  let idF ← getField schema ID_FIELD
  let premiumF ← getField schema PREMIUM_FIELD
  let usernameF ← getField schema USERNAME_FIELD
  let descriptionF ← getField schema DESCRIPTION_FIELD
  let featuresF ← getField schema FEATURES_FIELD
  let tagsF ← getField schema TAGS_FIELD
  let tagsAggF ← getField schema TAGS_AGG_FIELD
  pure ([(idF, TermValue.i64 b.id),
         (premiumF, TermValue.u64 (if premiumBit b.flags then 1 else 0)),
         (usernameF, TermValue.text b.username),
         (descriptionF, TermValue.text b.brief_description),
         (featuresF, TermValue.u64 (b.features % 2 ^ 64).toNat)] ++
        b.tags.flatMap fun t => [(tagsF, TermValue.text t),
                              (tagsAggF, TermValue.text t)])

/-! ## Writer operations and index contents
(`src/search/writer.rs`, `src/search/index_impls/bots.rs`) -/

/-- `WriterOp` (`src/search/writer.rs`); the ping payload is irrelevant
to index contents. -/
inductive WriterOp where
  | addDocument (doc : Document)
  | removeDocuments (term : String × TermValue)
  | clearAll
  | ping
deriving DecidableEq, Repr

/-- The committed index contents: the list of its documents. -/
abbrev IndexState := List Document

/-- Index-time term expansion of a document: text values of regular
fields go through the default tokenizer (length cap 40), aggregation
fields keep the raw value, integer fields index their value directly. -/
def docTerms (d : Document) : List (String × TermValue) :=
  d.flatMap fun fv =>
    match fv.2 with
    | TermValue.text s =>
      if fv.1 = TAGS_AGG_FIELD ∨ fv.1 = TAG_AGG_FIELD then [(fv.1, TermValue.text s)]
      else (tokenize 40 s).map fun t => (fv.1, TermValue.text t)
    | v => [(fv.1, v)]

/-- `handle_message` (`src/search/writer.rs`): `AddDocument` appends,
`RemoveDocuments` is `delete_term` (drops every document carrying the
term), `ClearAll` is `delete_all_documents`, ping touches nothing. -/
def handle_message (idx : IndexState) : WriterOp → IndexState
  | WriterOp.addDocument d => idx ++ [d]
  | WriterOp.removeDocuments t => idx.filter fun d => !(docTerms d).contains t
  | WriterOp.clearAll => []
  | WriterOp.ping => idx

/-- The index contents after the writer has applied a batch of
operations in order and committed. -/
def applyOps (idx : IndexState) (ops : List WriterOp) : IndexState :=
  ops.foldl handle_message idx

/-- The operations `BotIndex::upsert_bot` sends to the writer
(`src/search/index_impls/bots.rs` lines 91–102): exactly one
`AddDocument`; no `DeleteByTerm` precedes it.  When document
construction panics nothing reaches the writer. -/
def upsert_bot_ops (schema : Schema) (b : Bot) : List WriterOp :=
  match asTantivyDoc b schema with
  | some d => [WriterOp.addDocument d]
  | none => []

/-- The operation `BotIndex::remove_bot` sends: delete by the id term. -/
def remove_bot_ops (id : Int) : List WriterOp :=
  [WriterOp.removeDocuments (ID_FIELD, TermValue.i64 id)]

/-- Number of index documents carrying the id term of `id`. -/
def countDocsWithId (idx : IndexState) (id : Int) : Nat :=
  (idx.filter fun d => (docTerms d).contains (ID_FIELD, TermValue.i64 id)).length

/-- Stored-id extraction from a committed document. -/
def getStoredId (d : Document) : Option Int :=
  d.filterMap (fun fv =>
    match fv with
    | (f, TermValue.i64 v) => if f = ID_FIELD then some v else none
    | _ => none) |>.head?

/-- The ids returned by an exact-term search on the username field. -/
def searchExactUsername (idx : IndexState) (uname : String) : List Int :=
  idx.filterMap fun d =>
    if (docTerms d).contains (USERNAME_FIELD, TermValue.text uname) then
      getStoredId d
    else none

/-- The combined bot-side system state claim C3 speaks about: the
committed index view plus the process-wide bot state. -/
structure SystemState where
  index : IndexState
  bot : BotState

/-- The effect of `BotIndex::upsert_bot` on the system state once the
writer has committed: build the document (panic aborts everything),
send `AddDocument`, then `update_live_data` — with no hidden-row check
anywhere on this path. -/
def upsertBot (schema : Schema) (sys : SystemState) (row : Bot) :
    Option SystemState :=
  (asTantivyDoc row schema).map fun d =>
    { index := handle_message sys.index (WriterOp.addDocument d)
      bot := update_live_data sys.bot row }

/-- The effect of `BotIndex::remove_bot` on the system state once the
writer has committed. -/
def removeBot (sys : SystemState) (id : Int) : SystemState :=
  { index := applyOps sys.index (remove_bot_ops id)
    bot := remove_bot_from_live sys.bot id }

/-! ## Collectors and ranking (`src/search/readers/mod.rs`) -/

/-- `Order` (`src/search/readers/mod.rs`). -/
inductive Order where
  | desc
  | asc
deriving DecidableEq, Repr

/-- The tweaked comparison used by `collector_for_id_desc`: documents are
ranked by the pair `(cb(entity_id), original_score)` compared
lexicographically, larger first.  `tweakGE cb a b` says `a` ranks at
least as high as `b`. -/
def tweakGE {K : Type} [LinearOrder K] (cb : Int → K) (a b : SDoc) : Prop :=
  cb b.storedId < cb a.storedId ∨
    (cb a.storedId = cb b.storedId ∧ b.score ≤ a.score)

instance {K : Type} [LinearOrder K] (cb : Int → K) :
    DecidableRel (tweakGE cb) := fun a b => by
  unfold tweakGE; infer_instance

instance {K : Type} [LinearOrder K] (cb : Int → K) :
    IsTotal SDoc (tweakGE cb) where
  total a b := by
    unfold tweakGE
    rcases lt_trichotomy (cb a.storedId) (cb b.storedId) with h | h | h
    · exact Or.inr (Or.inl h)
    · rcases le_total b.score a.score with hs | hs
      · exact Or.inl (Or.inr ⟨h, hs⟩)
      · exact Or.inr (Or.inr ⟨h.symm, hs⟩)
    · exact Or.inl (Or.inl h)

instance {K : Type} [LinearOrder K] (cb : Int → K) :
    IsTrans SDoc (tweakGE cb) where
  trans a b c hab hbc := by
    unfold tweakGE at *
    rcases hab with h1 | ⟨h1, s1⟩
    · rcases hbc with h2 | ⟨h2, _⟩
      · exact Or.inl (h2.trans h1)
      · exact Or.inl (h2 ▸ h1)
    · rcases hbc with h2 | ⟨h2, s2⟩
      · exact Or.inl (h1 ▸ h2)
      · exact Or.inr ⟨h1.trans h2, s2.trans s1⟩

/-- Ranking by original score only, larger first (`TopDocs` without a
tweak, the `Relevancy` branch in descending order). -/
def scoreGE (a b : SDoc) : Prop := b.score ≤ a.score

instance : DecidableRel scoreGE := fun a b => by unfold scoreGE; infer_instance

instance : IsTotal SDoc scoreGE := ⟨fun a b => le_total b.score a.score⟩

instance : IsTrans SDoc scoreGE := ⟨fun _ _ _ h1 h2 => h2.trans h1⟩

/-- Ranking by `Reverse(original_score)` (the ascending `Relevancy`
branch of `execute_basic_search`): smaller score first. -/
def scoreLE (a b : SDoc) : Prop := a.score ≤ b.score

instance : DecidableRel scoreLE := fun a b => by unfold scoreLE; infer_instance

instance : IsTotal SDoc scoreLE := ⟨fun a b => le_total a.score b.score⟩

instance : IsTrans SDoc scoreLE := ⟨fun _ _ _ h1 h2 => h1.trans h2⟩

/-- The documents of the searcher snapshot matching a query, after the
optional `FilterCollector` fast-field predicate on the `features`
field (`apply_filter_and_collect`). -/
def matchingDocs (searcher : List SDoc) (q : Query)
    (pred : Option (Nat → Bool)) : List SDoc :=
  searcher.filter fun d =>
    evalQuery d q && (match pred with
                      | some p => p d.fastFeatures
                      | none => true)

/-- `collector_for_id_desc` (`src/search/readers/mod.rs` 98–126): rank
the matching documents by `(cb(id), score)` descending and keep the top
`k`. -/
def collector_for_id_desc {K : Type} [LinearOrder K] (cb : Int → K)
    (k : Nat) (searcher : List SDoc) (q : Query)
    (pred : Option (Nat → Bool)) : List SDoc :=
  (List.insertionSort (tweakGE cb) (matchingDocs searcher q pred)).take k

/-- `collector_for_id_asc` (`src/search/readers/mod.rs` 128–156): the
same collector with the key wrapped in `Reverse`, modelled by composing
`cb` with `OrderDual.toDual`. -/
def collector_for_id_asc {K : Type} [LinearOrder K] (cb : Int → K)
    (k : Nat) (searcher : List SDoc) (q : Query)
    (pred : Option (Nat → Bool)) : List SDoc :=
  @collector_for_id_desc (OrderDual K) _
    (fun i => OrderDual.toDual (cb i)) k searcher q pred

/-- `execute_basic_search`: the native-score `TopDocs`, with the
ascending variant replacing the score by `Reverse(score)`. -/
def execute_basic_search (k : Nat) (searcher : List SDoc) (q : Query)
    (ord : Order) (pred : Option (Nat → Bool)) : List SDoc :=
  match ord with
  | Order.desc => (List.insertionSort scoreGE (matchingDocs searcher q pred)).take k
  | Order.asc => (List.insertionSort scoreLE (matchingDocs searcher q pred)).take k

/-- `execute_search` (`src/search/readers/mod.rs` 44–66): dispatch on the
order to the descending or ascending keyed collector. -/
def execute_search {K : Type} [LinearOrder K] (cb : Int → K) (k : Nat)
    (searcher : List SDoc) (q : Query) (ord : Order)
    (pred : Option (Nat → Bool)) : List SDoc :=
  match ord with
  | Order.desc => collector_for_id_desc cb k searcher q pred
  | Order.asc => collector_for_id_asc cb k searcher q pred

/-- `filter_down_addresses` (`src/search/readers/mod.rs` 240–246):
append each collected address to the running list unless it is already
present. -/
def filter_down_addresses (docs : List SDoc) (results : List Nat) :
    List Nat :=
  docs.foldl (fun acc d => if acc.contains d.addr then acc else acc ++ [d.addr])
    results

/-! ## The bot reader pipeline (`src/search/readers/bots.rs`) -/

/-- `BotsSortBy`. -/
inductive BotsSortBy where
  | relevancy
  | votes
  | trending
  | popularity
  | premium
deriving DecidableEq, Repr

/-- `BotFilter` (`src/search/readers/bots.rs`): tag set, optional
features bitmask, optional premium boolean. -/
structure BotFilter where
  tags : List String
  features : Option Nat
  premium : Option Bool
deriving Repr

/-- `apply_filter` (`src/search/readers/bots.rs` 259–296), translated
clause for clause: when the tag set is empty the base query is returned
unchanged; otherwise the tags become SHOULD term queries on the
aggregation field, an optional premium MUST term clause is pushed onto
the same list, and the result is ANDed with the base query. -/
def apply_filter (filter : BotFilter) (existing_query : Query) : Query :=
  if filter.tags.isEmpty then existing_query
  else
    let parts := filter.tags.map fun v =>
      (Occur.should, Query.term TAGS_AGG_FIELD (TermValue.text v))
    let parts := parts ++
      (match filter.premium with
       | some premium =>
         [(Occur.must,
           Query.term PREMIUM_FIELD (TermValue.u64 (if premium then 1 else 0)))]
       | none => [])
    Query.boolean [(Occur.must, existing_query),
                   (Occur.must, Query.boolean parts)]

/-- `search_docs` (`src/search/readers/bots.rs` 196–257): build the
`TopDocs` collector for `limit` addresses, build the features fast-field
predicate, dispatch on the sort key, and append the collected addresses
through `filter_down_addresses`. -/
def search_docs (st : BotState) (searcher : List SDoc)
    (results : List Nat) (q : Query) (k : Nat) (sortBy : BotsSortBy)
    (ord : Order) (features_filter : Option Nat) : List Nat :=
  let pred : Option (Nat → Bool) :=
    features_filter.map fun flags => fun v => (v &&& flags) != 0
  let collected : List SDoc :=
    match sortBy with
    | BotsSortBy.relevancy => execute_basic_search k searcher q ord pred
    | BotsSortBy.popularity =>
      execute_search (get_bot_guild_count st) k searcher q ord pred
    | BotsSortBy.premium =>
      execute_search (get_bot_premium st) k searcher q ord pred
    | BotsSortBy.trending =>
      execute_search (get_bot_trending_score st) k searcher q ord pred
    | BotsSortBy.votes =>
      execute_search (get_bot_votes st) k searcher q ord pred
  filter_down_addresses collected results

/-- Modelled from the spec: the `Option`-accepting `parse_query` the
readers call (`parse_query(query.as_deref(), search_fields)`) is a
variant missing from the source tree (the `queries.rs` in the tree takes
`&str`).  Spec §4.2: an empty or null free-text string produces a single
wildcard stage matching every document. -/
def parse_query_opt (q : Option String) (fields : List String) :
    Option (List Query) :=
  match q with
  | none => some [Query.all]
  | some s => parseQuery s fields

/-- Modelled from the spec: `queries::distribution_query`, called by both
readers, is missing from the source tree.  Spec §4.2: the stage-0 form if
tokens exist, otherwise an all-docs query. -/
def distribution_query (q : Option String) (fields : List String) : Query :=
  match q with
  | none => Query.all
  | some s =>
    match buildFuzzyStage 0 0 fields (tokenize 10 s) with
    | some (some stage) => stage
    | _ => Query.all

/-- The stage loop of `execute_search` (`src/search/readers/bots.rs`
157–178): apply the filter to each stage, collect, and stop early only
when the address count is exactly `limit + offset`. -/
def collectStages (st : BotState) (searcher : List SDoc)
    (filter : BotFilter) (k : Nat) (sortBy : BotsSortBy) (ord : Order)
    (features_filter : Option Nat) :
    List Query → List Nat → List Nat
  | [], acc => acc
  | stage :: rest, acc =>
    let acc2 := search_docs st searcher acc (apply_filter filter stage) k
      sortBy ord features_filter
    if acc2.length = k then acc2
    else collectStages st searcher filter k sortBy ord features_filter rest acc2

/-- `Searcher::doc(address)`. -/
def searcherDoc (searcher : List SDoc) (addr : Nat) : Option SDoc :=
  searcher.find? fun d => d.addr = addr

/-- `BotHit::from_doc` (`src/routes/bots.rs`): read the stored id, look
the row up in the live cache (`None` drops the hit), convert. -/
def bot_hit_from_doc (st : BotState) (d : SDoc) : Option BotHit :=
  (get_bot_data st d.storedId).map (botHitFrom st)

/-- `extract_search_data` (`src/search/readers/mod.rs` 158–175)
specialised to `BotHit`: fetch each address's document and keep the
hydratable ones. -/
def extract_search_data (st : BotState) (searcher : List SDoc)
    (addrs : List Nat) : List BotHit :=
  addrs.filterMap fun a => (searcherDoc searcher a).bind (bot_hit_from_doc st)

/-- The result triple of the bot reader: total count from the
distribution query, the collected address list (kept explicitly because
the claims quantify over it), and the hydrated hits. -/
structure BotSearchOutcome where
  count : Nat
  addrs : List Nat
  hits : List BotHit
deriving DecidableEq, Repr

/-- `execute_search` (`src/search/readers/bots.rs` 142–194): run the
stage loop, run the filtered distribution query for the count, skip
`offset` addresses — with no `take(limit)` — and hydrate.  `none` models
a panic inside the query planner. -/
def execute_search_bots (st : BotState) (searcher : List SDoc)
    (fields : List String) (q : Option String) (filter : BotFilter)
    (limit offset : Nat) (sortBy : BotsSortBy) (ord : Order) :
    Option BotSearchOutcome := do
  let stages ← parse_query_opt q fields
  let features_filter := filter.features
  let addrs := collectStages st searcher filter (limit + offset) sortBy ord
    features_filter stages []
  let dquery := apply_filter filter (distribution_query q fields)
  let pred : Option (Nat → Bool) :=
    features_filter.map fun flags => fun v => (v &&& flags) != 0
  let count := (matchingDocs searcher dquery pred).length
  let hits := extract_search_data st searcher (addrs.drop offset)
  pure ⟨count, addrs, hits⟩

/-! ## The writer actor's commit timing (`src/search/writer.rs`) -/

/-- `AUTO_COMMIT_SECS` (`src/search/writer.rs`). -/
def AUTO_COMMIT_SECS : Nat := 15

/-- A commit the writer actor performs: an auto commit from the
`recv_timeout` timeout branch, or the terminal commit after the channel
is closed (which `run_writer` follows with `wait_merging_threads` and
exit). -/
inductive Commit where
  | auto (time : Nat)
  | final (time : Nat)
deriving DecidableEq, Repr

/-- The commits of `run_writer` over a discrete-time trace of operation
arrival times (`ops`, non-decreasing) followed by the channel closing at
`tc`.  The Boolean state is `op_since_last_commit`, `t` the time of the
last handled event:

* idle (`false`): `recv()` blocks — the next op flips to dirty, channel
  close breaks the loop (terminal commit, wait for merges, exit);
* dirty (`true`): `recv_timeout(15 s)` — an op arriving before the
  deadline is handled and the deadline restarts; if the deadline passes
  first the actor commits at `t + 15` and returns to idle; close breaks
  the loop.

Handling an operation is modelled as instantaneous, so each
`recv_timeout` deadline is 15 seconds after the previously handled
event. -/
def runWriterCommits : Bool → Nat → List Nat → Nat → List Commit
  | false, _, [], tc => [Commit.final tc]
  | false, _, t2 :: rest, tc => runWriterCommits true t2 rest tc
  | true, t, [], tc =>
    if t + AUTO_COMMIT_SECS ≤ tc then
      Commit.auto (t + AUTO_COMMIT_SECS) :: [Commit.final tc]
    else [Commit.final tc]
  | true, t, t2 :: rest, tc =>
    if t2 < t + AUTO_COMMIT_SECS then runWriterCommits true t2 rest tc
    else Commit.auto (t + AUTO_COMMIT_SECS) :: runWriterCommits true t2 rest tc

/-- The commits of a writer started at time 0 and fed ops at the given
times, the channel closing at `tc`. -/
def writerRun (opTimes : List Nat) (tc : Nat) : List Commit :=
  runWriterCommits false 0 opTimes tc

/-- The commit schedule as claim C8 words it, as a scan over the op
arrival gaps: an auto commit fires at `t + 15` exactly when no further
operation arrives within 15 seconds of the op handled at `t` (and the
channel outlives the deadline); closing the channel always produces the
terminal commit.  While operations keep arriving less than 15 seconds
apart no commit occurs. -/
def writerSpec : List Nat → Nat → List Commit
  | [], tc => [Commit.final tc]
  | [t], tc =>
    if t + AUTO_COMMIT_SECS ≤ tc then
      [Commit.auto (t + AUTO_COMMIT_SECS), Commit.final tc]
    else [Commit.final tc]
  | t :: t2 :: rest, tc =>
    if t2 < t + AUTO_COMMIT_SECS then writerSpec (t2 :: rest) tc
    else Commit.auto (t + AUTO_COMMIT_SECS) :: writerSpec (t2 :: rest) tc

/-! ## Concrete fixtures for witnesses and counterexamples -/

/-- Scenario S1's bot 1: `{id:1, username:"Kira", brief_description:
"music bot", tags:["music","fun"], flags:0, features:0b0001,
is_packable:true, is_hidden:false, guild_count:1000}`. -/
def botKira : Bot :=
  { id := 1, username := "Kira", avatar := none, discriminator := 1
    pref := none, is_packable := true, slug := none, flags := 0
    features := 1, invite_url := "", tags := ["music", "fun"]
    created_on := 0, is_hidden := false, is_forced_into_hiding := false
    owner_id := 7, co_owner_ids := [], guild_count := some 1000
    brief_description := "music bot" }

/-- Scenario S1's bot 2: `{id:2, username:"Kyra", tags:["music"],
flags:1, features:0b0011, guild_count:200}` — the premium bot. -/
def botKyra : Bot :=
  { id := 2, username := "Kyra", avatar := none, discriminator := 2
    pref := none, is_packable := true, slug := none, flags := 1
    features := 3, invite_url := "", tags := ["music"]
    created_on := 0, is_hidden := false, is_forced_into_hiding := false
    owner_id := 8, co_owner_ids := [], guild_count := some 200
    brief_description := "" }

/-- A hidden bot row, used to probe the upsert path. -/
def botGhost : Bot :=
  { id := 1, username := "ghost", avatar := none, discriminator := 1
    pref := none, is_packable := true, slug := none, flags := 0
    features := 0, invite_url := "", tags := []
    created_on := 0, is_hidden := true, is_forced_into_hiding := false
    owner_id := 7, co_owner_ids := [], guild_count := none
    brief_description := "" }

/-- The searcher-side documents of the S1 state (ids 1 and 2 committed),
with oracle relevance scores 2 and 1. -/
def s1Docs : List SDoc :=
  [{ addr := 0, storedId := 1, fastFeatures := 1
     terms := [(ID_FIELD, TermValue.i64 1), (PREMIUM_FIELD, TermValue.u64 0),
               (FEATURES_FIELD, TermValue.u64 1),
               (USERNAME_FIELD, TermValue.text "kira"),
               (DESCRIPTION_FIELD, TermValue.text "music"),
               (DESCRIPTION_FIELD, TermValue.text "bot"),
               (TAGS_FIELD, TermValue.text "music"),
               (TAGS_FIELD, TermValue.text "fun"),
               (TAGS_AGG_FIELD, TermValue.text "music"),
               (TAGS_AGG_FIELD, TermValue.text "fun")]
     score := 2 },
   { addr := 1, storedId := 2, fastFeatures := 3
     terms := [(ID_FIELD, TermValue.i64 2), (PREMIUM_FIELD, TermValue.u64 1),
               (FEATURES_FIELD, TermValue.u64 3),
               (USERNAME_FIELD, TermValue.text "kyra"),
               (TAGS_FIELD, TermValue.text "music"),
               (TAGS_AGG_FIELD, TermValue.text "music")]
     score := 1 }]

/-- The live-cache state matching S1. -/
def s1State : BotState :=
  { live := [(1, botKira), (2, botKyra)], votes := [], trending := [] }

/-- The search fields of the bot reader
(`BotIndex::create`): username, brief_description, tags. -/
def botSearchFields : List String :=
  [USERNAME_FIELD, DESCRIPTION_FIELD, TAGS_FIELD]

/-- A bot whose only username term is `"abce"`: matched by the
distance-1 stage of query `"abcd"` but not by its distance-0 stage. -/
def botAbce : Bot :=
  { id := 5, username := "abce", avatar := none, discriminator := 1
    pref := none, is_packable := true, slug := none, flags := 0
    features := 0, invite_url := "", tags := []
    created_on := 0, is_hidden := false, is_forced_into_hiding := false
    owner_id := 7, co_owner_ids := [], guild_count := none
    brief_description := "" }

/-- Three bot rows whose usernames `"abcd"`, `"abce"`, `"abcf"` probe
the stage loop: only the first matches the distance-0 stage, all three
match the distance-1 stage. -/
def botAbcd (id : Int) (uname : String) : Bot :=
  { id := id, username := uname, avatar := none, discriminator := 1
    pref := none, is_packable := true, slug := none, flags := 0
    features := 0, invite_url := "", tags := []
    created_on := 0, is_hidden := false, is_forced_into_hiding := false
    owner_id := 7, co_owner_ids := [], guild_count := none
    brief_description := "" }

/-- A searcher in which the exact match scores lowest: stage 0 collects
only document 0, stage 1's top-2 then crowds it out with documents 1 and
2, pushing the deduplicated address list past `limit + offset`. -/
def overshootDocs : List SDoc :=
  [{ addr := 0, storedId := 6, fastFeatures := 0
     terms := [(ID_FIELD, TermValue.i64 6),
               (USERNAME_FIELD, TermValue.text "abcd")], score := 1 },
   { addr := 1, storedId := 7, fastFeatures := 0
     terms := [(ID_FIELD, TermValue.i64 7),
               (USERNAME_FIELD, TermValue.text "abce")], score := 5 },
   { addr := 2, storedId := 8, fastFeatures := 0
     terms := [(ID_FIELD, TermValue.i64 8),
               (USERNAME_FIELD, TermValue.text "abcf")], score := 4 }]

/-- The live state for the overshoot searcher. -/
def overshootState : BotState :=
  { live := [(6, botAbcd 6 "abcd"), (7, botAbcd 7 "abce"), (8, botAbcd 8 "abcf")]
    votes := [], trending := [] }

/-- The single-document searcher for `botAbce`. -/
def abceDocs : List SDoc :=
  [{ addr := 0, storedId := 5, fastFeatures := 0
     terms := [(ID_FIELD, TermValue.i64 5),
               (USERNAME_FIELD, TermValue.text "abce")]
     score := 1 }]

/-- The live state holding only `botAbce`. -/
def abceState : BotState :=
  { live := [(5, botAbce)], votes := [], trending := [] }

/-- The empty filter (`BotFilter::default()`). -/
def emptyFilter : BotFilter := { tags := [], features := none, premium := none }

/-- A pack with members 1, 2 and the absent id 999 (scenario S5). -/
def packS5 : Pack :=
  { id := 10, name := "Music Starter", description := "", created_on := 0
    tag := "music", bots := [1, 2, 999], is_hidden := false
    is_forced_into_hiding := false, owner_id := 7 }

/-- The pack-side state holding `packS5`. -/
def packS5State : PackState :=
  { live := [(10, packS5)], votes := [], trending := [] }

/-- A fixture for the keyed-collector ordering claim: two documents with
ids 1 and 2 and equal scores except where the key decides. -/
def c7State : BotState :=
  { live := [], votes := [(1, 5), (2, 9)], trending := [] }

/-- Two-document searcher for the keyed-collector witness. -/
def c7Docs : List SDoc :=
  [{ addr := 0, storedId := 1, fastFeatures := 0
     terms := [(ID_FIELD, TermValue.i64 1)], score := 7 },
   { addr := 1, storedId := 2, fastFeatures := 0
     terms := [(ID_FIELD, TermValue.i64 2)], score := 3 }]

/-! # Theorems settling the claims -/

/-! ## C1 -/

/-- C1: the claim says every bot search whose filter has `premium` set
compiles a MUST clause `premium_field = premium?1:0` into each stage and
the distribution query regardless of the tag set, so that filter
`{premium:true}` over the S1 state returns only bot 2.  The code refutes
it: `apply_filter` returns the base query unchanged whenever the tag set
is empty, so the premium clause is dropped and the S3 search returns
both bots with `nb_hits = 2`. -/
theorem C1_empty_tags_drop_premium_clause :
    (∀ q : Query, apply_filter ⟨[], none, some true⟩ q = q) ∧
    (execute_search_bots s1State s1Docs botSearchFields none
        ⟨[], none, some true⟩ 20 0 BotsSortBy.relevancy Order.desc).map
      (fun r => (r.count, r.hits.map BotHit.id)) = some (2, [1, 2]) := by
  refine ⟨fun q => rfl, by decide⟩

/-! ## C2 -/

/-- C2: the claim says every upsert sends a delete-by-id-term before the
add-document, making the committed index hold exactly one document per
id.  The code refutes it: `BotIndex::upsert_bot` sends only
`AddDocument` (never a `RemoveDocuments`), so two upserts of bot 1
followed by a commit leave two documents with id 1 in the index. -/
theorem C2_upsert_sends_only_add :
    (∀ b : Bot,
      ((upsert_bot_ops spec_schema b).all fun op =>
        match op with
        | WriterOp.addDocument _ => true
        | _ => false) = true) ∧
    countDocsWithId
      (applyOps []
        (upsert_bot_ops spec_schema botKira ++ upsert_bot_ops spec_schema botKira))
      1 = 2 := by
  constructor
  · intro b
    unfold upsert_bot_ops
    cases hd : asTantivyDoc b spec_schema with
    | none => rfl
    | some d => rfl
  · decide

/-! ## C3 -/

/-- C3: the claim says an upsert whose fetched row is hidden leaves the
id out of both the index and the live cache.  The code refutes it:
`upsert_bot` builds and sends the document and `update_live_data`
inserts the row with no check of `is_hidden`/`is_forced_into_hiding`, so
after upserting the hidden row `botGhost` and committing, an exact
username search returns the id and the live cache holds the row. -/
theorem C3_hidden_upsert_is_indexed_and_cached :
    botGhost.is_hidden = true ∧
    (upsertBot spec_schema ⟨[], ⟨[], [], []⟩⟩ botGhost).map
      (fun sys =>
        (searchExactUsername sys.index "ghost",
         get_bot_data sys.bot 1)) = some ([1], some botGhost) := by
  exact ⟨rfl, by decide⟩

/-! ## C4 -/

/-- C4: the claim says `get_pack_bot_count` equals the number of member
ids whose row exists in the live cache, is not hidden and is packable —
a missing member contributing 0 — and that this equals the hydrated
member-hit count.  The code refutes it: `is_hidden` returns `false` for
an absent row (`unwrap_or_default`), so the missing member 999 of the S5
pack is counted, giving `num_bots = 3`, while hydration drops it and
carries 2 bot hits; the claim-side count is 2. -/
theorem C4_missing_member_counted :
    get_pack_bot_count packS5State s1State 10 = 3 ∧
    (packHitBots s1State packS5).length = 2 ∧
    (packS5.bots.filter fun id =>
      ((get_bot_data s1State id).map fun b =>
        b.is_packable && !b.is_hidden && !b.is_forced_into_hiding).getD
        false).length = 2 := by
  refine ⟨by decide, by decide, by decide⟩

/-! ## C5 -/

/-- With a nonempty field list, `build_fuzzy_stage` computes exactly the
per-stage query of the claim's wording. -/
theorem buildFuzzyStage_eq (dist cutoff : Nat) (fields tokens : List String)
    (h : fields.isEmpty = false) :
    buildFuzzyStage dist cutoff fields tokens =
      some (plannerSpecStage dist cutoff fields tokens) := by
  unfold buildFuzzyStage plannerSpecStage survivors fieldGroup
  simp only [h, Bool.false_eq_true, if_false]
  cases hs : (tokens.filter fun t => decide (cutoff ≤ t.utf8ByteSize)).isEmpty <;>
    simp only [hs, Bool.false_eq_true, if_false, if_true]

/-- C5 (counterexample): the claim quantifies over every ordered field
list and says an empty token stream yields no stages, but with the empty
field list `parse_query` panics (`stage[0]` indexes an empty `Vec`)
instead of producing the empty stage list the claim describes. -/
theorem C5_empty_field_list_panics :
    (parseQuery "" []).isNone = true ∧ (plannerSpec "" []).isEmpty = true ∧
    (parseQuery "" []).isSome = false := ⟨rfl, rfl, rfl⟩

/-- C5 (amended): for every free-text string and every *nonempty*
ordered list of text fields, the planner produces exactly the claimed
plan — stages in order of edit distance 0, 1, 2 with token length cuts
0, 4, 8, each field `i`'s surviving-token clauses prefix fuzzy queries
combined SHOULD and boosted by `1.0 − 0.10·i`, field groups combined
SHOULD, stages with no surviving tokens omitted, and an empty token
stream yielding no stages. -/
theorem C5_staged_fuzzy_plan (q : String) (fields : List String)
    (h : fields ≠ []) :
    parseQuery q fields = some (plannerSpec q fields) := by
  have hne : fields.isEmpty = false := by
    cases fields
    · exact absurd rfl h
    · rfl
  unfold parseQuery plannerSpec
  simp only []
  rw [buildFuzzyStage_eq 0 0 fields (tokenize 10 q) hne,
      buildFuzzyStage_eq 1 4 fields (tokenize 10 q) hne,
      buildFuzzyStage_eq 2 8 fields (tokenize 10 q) hne]
  cases h0 : plannerSpecStage 0 0 fields (tokenize 10 q) <;>
  cases h1 : plannerSpecStage 1 4 fields (tokenize 10 q) <;>
  cases h2 : plannerSpecStage 2 8 fields (tokenize 10 q) <;>
    simp [h0, h1, h2, List.filterMap]

/-- Witness for C5: the amended theorem applied to the bot reader's
three search fields and a query with a short and a long token. -/
theorem C5_staged_fuzzy_plan_witness :
    parseQuery "kira abcdefgh" botSearchFields =
      some (plannerSpec "kira abcdefgh" botSearchFields) :=
  C5_staged_fuzzy_plan "kira abcdefgh" botSearchFields (by decide)

/-! ## C9 -/

/-- C9: the schema built by `default_schema` contains exactly the fields
`id`, `features`, `premium`, `username`, `brief_description`, `tags` —
no `tags_agg` aggregation field — while `Bot::as_tantivy_doc`
unconditionally unwraps the `tags_agg` lookup, so converting any bot
against that schema reaches the unwrap-on-`None` panic instead of
producing a document. -/
theorem C9_as_tantivy_doc_panics_on_default_schema :
    default_schema =
      ["id", "features", "premium", "username", "brief_description", "tags"] ∧
    ∀ b : Bot, asTantivyDoc b default_schema = none := by
  exact ⟨rfl, fun b => rfl⟩

/-! ## C10 -/

/-- C10: the public bot hit built from a bot row sets the hit's `flags`
field to the bot's `features` bitfield (not its `flags` bitfield, as
bot 2 of scenario S1 shows concretely), the hit's `features` field also
carries the `features` bitfield, and reading the premium bit from the
hit's `flags` observes the `features` value. -/
theorem C10_bot_hit_flags_carries_features :
    (∀ (st : BotState) (b : Bot),
      (botHitFrom st b).flags = b.features ∧
      (botHitFrom st b).features = b.features ∧
      premiumBit (botHitFrom st b).flags = premiumBit b.features) ∧
    ((botHitFrom s1State botKyra).flags == botKyra.flags) = false := by
  refine ⟨fun st b => ⟨rfl, rfl, rfl⟩, by decide⟩


/-! ## C6 -/

/-- `filter_down_addresses` keeps the address list duplicate-free. -/
theorem nodup_filter_down (docs : List SDoc) (results : List Nat)
    (h : results.Nodup) : (filter_down_addresses docs results).Nodup := by
  induction docs generalizing results with
  | nil => exact h
  | cons d rest ih =>
    unfold filter_down_addresses
    simp only [List.foldl_cons]
    by_cases hc : d.addr ∈ results
    · simpa [filter_down_addresses, hc] using ih results h
    · have : (results ++ [d.addr]).Nodup := by
        simp [List.nodup_append, h, hc]
      simpa [filter_down_addresses, hc] using ih (results ++ [d.addr]) this

/-- `filter_down_addresses` appends at most one entry per collected
document. -/
theorem length_filter_down (docs : List SDoc) (results : List Nat) :
    (filter_down_addresses docs results).length ≤
      results.length + docs.length := by
  induction docs generalizing results with
  | nil => simp [filter_down_addresses]
  | cons d rest ih =>
    unfold filter_down_addresses
    simp only [List.foldl_cons]
    by_cases hc : d.addr ∈ results
    · have h2 : (List.foldl (fun acc d =>
          if acc.contains d.addr then acc else acc ++ [d.addr])
          (if results.contains d.addr then results else results ++ [d.addr])
          rest).length =
          (filter_down_addresses rest results).length := by
        simp [filter_down_addresses, hc]
      rw [h2]
      exact le_trans (ih results) (by simp)
    · have h2 : (List.foldl (fun acc d =>
          if acc.contains d.addr then acc else acc ++ [d.addr])
          (if results.contains d.addr then results else results ++ [d.addr])
          rest).length =
          (filter_down_addresses rest (results ++ [d.addr])).length := by
        simp [filter_down_addresses, hc]
      rw [h2]
      have h3 := ih (results ++ [d.addr])
      simp only [List.length_append, List.length_singleton] at h3
      simp only [List.length_cons]
      omega

/-- The top-K pool never returns more than `k` documents. -/
theorem length_take_le_k (l : List SDoc) (k : Nat) : (l.take k).length ≤ k := by
  simp [List.length_take]

/-- One `search_docs` pass preserves freedom from duplicates. -/
theorem search_docs_nodup (st : BotState) (searcher : List SDoc)
    (results : List Nat) (q : Query) (k : Nat) (sortBy : BotsSortBy)
    (ord : Order) (ff : Option Nat) (h : results.Nodup) :
    (search_docs st searcher results q k sortBy ord ff).Nodup := by
  unfold search_docs
  exact nodup_filter_down _ _ h

/-- One `search_docs` pass appends at most `k` addresses, whichever sort
key and order are selected. -/
theorem search_docs_length (st : BotState) (searcher : List SDoc)
    (results : List Nat) (q : Query) (k : Nat) (sortBy : BotsSortBy)
    (ord : Order) (ff : Option Nat) :
    (search_docs st searcher results q k sortBy ord ff).length ≤
      results.length + k := by
  unfold search_docs
  refine le_trans (length_filter_down _ _) ?_
  have hcol : ∀ l : List SDoc, l.length ≤ k →
      results.length + l.length ≤ results.length + k :=
    fun l hl => by omega
  cases sortBy <;> cases ord <;>
    exact hcol _ (by
      simp only [execute_basic_search, execute_search,
        collector_for_id_desc, collector_for_id_asc]
      exact length_take_le_k _ k)

/-- The stage loop preserves freedom from duplicates. -/
theorem collectStages_nodup (st : BotState) (searcher : List SDoc)
    (filter : BotFilter) (k : Nat) (sortBy : BotsSortBy) (ord : Order)
    (ff : Option Nat) (stages : List Query) (acc : List Nat)
    (h : acc.Nodup) :
    (collectStages st searcher filter k sortBy ord ff stages acc).Nodup := by
  induction stages generalizing acc with
  | nil => exact h
  | cons s rest ih =>
    unfold collectStages
    have hn := search_docs_nodup st searcher acc (apply_filter filter s) k
      sortBy ord ff h
    by_cases hcond : (search_docs st searcher acc (apply_filter filter s) k
        sortBy ord ff).length = k
    · simpa [hcond] using hn
    · simpa [hcond] using ih _ hn

/-- The stage loop grows the address list by at most `k` per stage. -/
theorem collectStages_length (st : BotState) (searcher : List SDoc)
    (filter : BotFilter) (k : Nat) (sortBy : BotsSortBy) (ord : Order)
    (ff : Option Nat) (stages : List Query) (acc : List Nat) :
    (collectStages st searcher filter k sortBy ord ff stages acc).length ≤
      acc.length + stages.length * k := by
  induction stages generalizing acc with
  | nil => simp [collectStages]
  | cons s rest ih =>
    unfold collectStages
    have hl := search_docs_length st searcher acc (apply_filter filter s) k
      sortBy ord ff
    by_cases hcond : (search_docs st searcher acc (apply_filter filter s) k
        sortBy ord ff).length = k
    · have : k ≤ acc.length + (rest.length + 1) * k := by
        have : k ≤ (rest.length + 1) * k := Nat.le_mul_of_pos_left k (by omega)
        omega
      simpa [hcond] using this
    · have h2 := ih (search_docs st searcher acc (apply_filter filter s) k
        sortBy ord ff)
      have h3 : (collectStages st searcher filter k sortBy ord ff rest
          (search_docs st searcher acc (apply_filter filter s) k sortBy ord
            ff)).length ≤
          acc.length + (rest.length + 1) * k := by
        have hmul : (rest.length + 1) * k = rest.length * k + k := by ring
        omega
      simpa [hcond] using h3

/-- `parse_query` never produces more than its three candidate stages. -/
theorem parseQuery_length (s : String) (fields : List String)
    (l : List Query) (h : parseQuery s fields = some l) : l.length ≤ 3 := by
  unfold parseQuery at h
  cases h0 : buildFuzzyStage 0 0 fields (tokenize 10 s) with
  | none => simp [h0] at h
  | some s0 =>
    cases h1 : buildFuzzyStage 1 4 fields (tokenize 10 s) with
    | none => simp [h0, h1] at h
    | some s1 =>
      cases h2 : buildFuzzyStage 2 8 fields (tokenize 10 s) with
      | none => simp [h0, h1, h2] at h
      | some s2 =>
        simp only [h0, h1, h2, Option.bind_eq_bind, Option.some_bind,
          pure] at h
        cases h
        have := List.length_filterMap_le id [s0, s1, s2]
        simpa using this

/-- The stage plan of a reader search has at most three stages. -/
theorem parse_query_opt_length (q : Option String) (fields : List String)
    (l : List Query) (h : parse_query_opt q fields = some l) :
    l.length ≤ 3 := by
  cases q with
  | none =>
    simp [parse_query_opt] at h
    simp [← h]
  | some s => exact parseQuery_length s fields l h

/-- Hydration only drops hits. -/
theorem extract_length (st : BotState) (searcher : List SDoc)
    (addrs : List Nat) :
    (extract_search_data st searcher addrs).length ≤ addrs.length :=
  List.length_filterMap_le _ _

/-- C6 (counterexample): with limit 2, offset 0 over three documents of
which only one matches the distance-0 stage but all three match the
distance-1 stage with the exact match scoring lowest, the deduplicated
address list reaches 3 entries (more than `limit + offset = 2`), the
response carries 3 hits (more than `limit = 2` and more than
`nb_hits = 1`), refuting the claimed bounds `len(addrs) ≤ L+O`,
`len(hits) ≤ L` and `len(hits) ≤ nb_hits`: the stage loop stops only on
exact equality with `limit + offset` and the hit list is never truncated
to `limit`, while the distribution query is the stage-0 form only. -/
theorem C6_overshoot_counterexample :
    (execute_search_bots overshootState overshootDocs botSearchFields
        (some "abcd") emptyFilter 2 0 BotsSortBy.relevancy Order.desc).map
      (fun r => (r.count, r.addrs, r.hits.length)) =
      some (1, [0, 1, 2], 3) := by
  decide

/-- C6 (amended): for every search request the collected address list
contains no duplicate addresses; each of the at most three stages
appends at most `limit + offset` addresses, so the list has at most
`3·(limit + offset)` entries; and the returned hits number at most
`len(addresses) − offset`.  The stronger claimed bounds
`len(addrs) ≤ L+O`, `len(hits) ≤ L` and `len(hits) ≤ nb_hits` do not
hold (see the counterexample). -/
theorem C6_collection_bounds (st : BotState) (searcher : List SDoc)
    (fields : List String) (q : Option String) (filter : BotFilter)
    (limit offset : Nat) (sortBy : BotsSortBy) (ord : Order)
    (r : BotSearchOutcome)
    (h : execute_search_bots st searcher fields q filter limit offset
      sortBy ord = some r) :
    r.addrs.Nodup ∧ r.addrs.length ≤ 3 * (limit + offset) ∧
      r.hits.length ≤ r.addrs.length - offset := by
  unfold execute_search_bots at h
  cases hp : parse_query_opt q fields with
  | none => rw [hp] at h; simp at h
  | some stages =>
    rw [hp] at h
    simp only [Option.bind_eq_bind, Option.some_bind, pure,
      Option.some_inj] at h
    have hlen3 := parse_query_opt_length q fields stages hp
    subst h
    refine ⟨?_, ?_, ?_⟩
    · exact collectStages_nodup _ _ _ _ _ _ _ _ _ List.nodup_nil
    · refine le_trans (collectStages_length _ _ _ _ _ _ _ stages []) ?_
      simp only [List.length_nil, Nat.zero_add]
      exact Nat.mul_le_mul_right _ hlen3
    · refine le_trans (extract_length _ _ _) ?_
      simp [List.length_drop]

/-- Witness for C6: the amended bounds at the S1 searcher with limit 1,
where the search collects exactly address 0 and hydrates bot 1. -/
theorem C6_collection_bounds_witness :
    (BotSearchOutcome.mk 2 [0] [botHitFrom s1State botKira]).addrs.Nodup ∧
    (BotSearchOutcome.mk 2 [0]
      [botHitFrom s1State botKira]).addrs.length ≤ 3 * (1 + 0) ∧
    (BotSearchOutcome.mk 2 [0] [botHitFrom s1State botKira]).hits.length ≤
      (BotSearchOutcome.mk 2 [0]
        [botHitFrom s1State botKira]).addrs.length - 0 :=
  C6_collection_bounds s1State s1Docs botSearchFields none emptyFilter 1 0
    BotsSortBy.relevancy Order.desc
    (BotSearchOutcome.mk 2 [0] [botHitFrom s1State botKira]) (by decide)

/-! ## C7 -/

/-- C7: for every keyed secondary sort (the repository's keys — votes,
trending, popularity, premium, likes, num_bots — are all linearly
ordered) and every matching-document set, the descending collector
returns documents in non-increasing key order, the ascending collector
(the same collector with the key wrapped in `Reverse`) returns them in
non-decreasing key order, and in both orders any two returned documents
with equal keys appear with the higher original relevance score first. -/
theorem C7_keyed_collector_order {K : Type} [LinearOrder K] (cb : Int → K)
    (k : Nat) (searcher : List SDoc) (q : Query)
    (pred : Option (Nat → Bool)) :
    ((collector_for_id_desc cb k searcher q pred).Pairwise fun a b =>
      cb b.storedId ≤ cb a.storedId ∧
        (cb a.storedId = cb b.storedId → b.score ≤ a.score)) ∧
    ((collector_for_id_asc cb k searcher q pred).Pairwise fun a b =>
      cb a.storedId ≤ cb b.storedId ∧
        (cb a.storedId = cb b.storedId → b.score ≤ a.score)) := by
  constructor
  · have hs : (List.insertionSort (tweakGE cb)
        (matchingDocs searcher q pred)).Pairwise (tweakGE cb) :=
      List.sorted_insertionSort _ _
    have ht : (collector_for_id_desc cb k searcher q pred).Pairwise
        (tweakGE cb) :=
      List.Pairwise.sublist (List.take_sublist _ _) hs
    refine ht.imp ?_
    intro a b hab
    rcases hab with hlt | ⟨heq, hsc⟩
    · exact ⟨le_of_lt hlt, fun he => (lt_irrefl _ (he ▸ hlt)).elim⟩
    · exact ⟨le_of_eq heq.symm, fun _ => hsc⟩
  · have hs : (List.insertionSort (tweakGE fun i => OrderDual.toDual (cb i))
        (matchingDocs searcher q pred)).Pairwise
        (tweakGE fun i => OrderDual.toDual (cb i)) :=
      List.sorted_insertionSort _ _
    have ht : (collector_for_id_asc cb k searcher q pred).Pairwise
        (tweakGE fun i => OrderDual.toDual (cb i)) :=
      List.Pairwise.sublist (List.take_sublist _ _) hs
    refine ht.imp ?_
    intro a b hab
    rcases hab with hlt | ⟨heq, hsc⟩
    · have h2 : cb a.storedId < cb b.storedId := hlt
      exact ⟨le_of_lt h2, fun he => (lt_irrefl _ (he ▸ h2)).elim⟩
    · have h2 : cb a.storedId = cb b.storedId := OrderDual.toDual_inj.mp heq
      exact ⟨le_of_eq h2, fun _ => hsc⟩

/-- Witness for C7: both collector orderings instantiated with the
votes sort key over a concrete two-document searcher. -/
theorem C7_keyed_collector_order_witness :
    ((collector_for_id_desc (get_bot_votes c7State) 2 c7Docs Query.all
        none).Pairwise fun a b =>
      get_bot_votes c7State b.storedId ≤ get_bot_votes c7State a.storedId ∧
        (get_bot_votes c7State a.storedId = get_bot_votes c7State b.storedId →
          b.score ≤ a.score)) ∧
    ((collector_for_id_asc (get_bot_votes c7State) 2 c7Docs Query.all
        none).Pairwise fun a b =>
      get_bot_votes c7State a.storedId ≤ get_bot_votes c7State b.storedId ∧
        (get_bot_votes c7State a.storedId = get_bot_votes c7State b.storedId →
          b.score ≤ a.score)) :=
  C7_keyed_collector_order (get_bot_votes c7State) 2 c7Docs Query.all none

/-! ## C8 -/

/-- In the dirty state the actor behaves exactly as the gap scan of
`writerSpec` describes. -/
theorem runWriterCommits_true_eq (t : Nat) (rest : List Nat) (tc : Nat) :
    runWriterCommits true t rest tc = writerSpec (t :: rest) tc := by
  induction rest generalizing t with
  | nil => rfl
  | cons t2 r ih =>
    unfold runWriterCommits writerSpec
    by_cases h : t2 < t + AUTO_COMMIT_SECS <;> simp [h, ih]

/-- Every writer run is some auto commits, each 15 seconds after an op
arrival, followed by exactly one terminal commit at channel close. -/
theorem writerSpec_shape (opTimes : List Nat) (tc : Nat) :
    ∃ autos : List Nat,
      writerSpec opTimes tc = autos.map Commit.auto ++ [Commit.final tc] ∧
      ∀ u ∈ autos, ∃ s ∈ opTimes, u = s + AUTO_COMMIT_SECS := by
  induction opTimes with
  | nil => exact ⟨[], rfl, by simp⟩
  | cons t rest ih =>
    cases rest with
    | nil =>
      by_cases h : t + AUTO_COMMIT_SECS ≤ tc
      · exact ⟨[t + AUTO_COMMIT_SECS], by simp [writerSpec, h], by simp⟩
      · exact ⟨[], by simp [writerSpec, h], by simp⟩
    | cons t2 r =>
      obtain ⟨autos, heq, hmem⟩ := ih
      by_cases h : t2 < t + AUTO_COMMIT_SECS
      · refine ⟨autos, by simp [writerSpec, h, heq], fun u hu => ?_⟩
        obtain ⟨s, hs, he⟩ := hmem u hu
        exact ⟨s, List.mem_cons_of_mem _ hs, he⟩
      · refine ⟨(t + AUTO_COMMIT_SECS) :: autos,
          by simp [writerSpec, h, heq], fun u hu => ?_⟩
        rcases List.mem_cons.mp hu with he | hu2
        · exact ⟨t, List.mem_cons_self _ _, he⟩
        · obtain ⟨s, hs, he⟩ := hmem u hu2
          exact ⟨s, List.mem_cons_of_mem _ hs, he⟩

/-- While operations keep arriving less than 15 seconds apart and the
channel closes within 15 seconds of the last one, the only commit is the
terminal one. -/
theorem writerSpec_no_auto : ∀ (opTimes : List Nat) (tc : Nat),
    opTimes.Chain' (fun a b => b < a + AUTO_COMMIT_SECS) →
    (∀ s ∈ opTimes, tc < s + AUTO_COMMIT_SECS) →
    writerSpec opTimes tc = [Commit.final tc]
  | [], _, _, _ => rfl
  | [t], tc, _, hclose => by
    have h1 := hclose t (by simp)
    simp [writerSpec, Nat.not_le.mpr h1]
  | t :: t2 :: r, tc, hchain, hclose => by
    have h12 : t2 < t + AUTO_COMMIT_SECS := (List.chain'_cons.mp hchain).1
    have htail := (List.chain'_cons.mp hchain).2
    have := writerSpec_no_auto (t2 :: r) tc htail
      (fun s hs => hclose s (List.mem_cons_of_mem _ hs))
    simp [writerSpec, h12, this]

/-- C8: the writer actor commits only in two situations — an auto commit
exactly 15 seconds after the last handled operation when no further
operation arrives in time (it then returns to the idle state, captured
by the gap-scan `writerSpec` the run equals), and one terminal commit
when the channel closes; every auto commit time is an op arrival plus 15
seconds, and while operations keep arriving less than 15 seconds apart
no commit occurs before the terminal one. -/
theorem C8_writer_commit_policy :
    (∀ (opTimes : List Nat) (tc : Nat),
        writerRun opTimes tc = writerSpec opTimes tc) ∧
    (∀ (opTimes : List Nat) (tc : Nat), ∃ autos : List Nat,
        writerRun opTimes tc = autos.map Commit.auto ++ [Commit.final tc] ∧
        ∀ u ∈ autos, ∃ s ∈ opTimes, u = s + AUTO_COMMIT_SECS) ∧
    (∀ (opTimes : List Nat) (tc : Nat),
        opTimes.Chain' (fun a b => b < a + AUTO_COMMIT_SECS) →
        (∀ s ∈ opTimes, tc < s + AUTO_COMMIT_SECS) →
        writerRun opTimes tc = [Commit.final tc]) := by
  have hrun : ∀ (opTimes : List Nat) (tc : Nat),
      writerRun opTimes tc = writerSpec opTimes tc := by
    intro opTimes tc
    cases opTimes with
    | nil => rfl
    | cons t rest => exact runWriterCommits_true_eq t rest tc
  refine ⟨hrun, ?_, ?_⟩
  · intro opTimes tc
    rw [hrun]
    exact writerSpec_shape opTimes tc
  · intro opTimes tc hchain hclose
    rw [hrun]
    exact writerSpec_no_auto opTimes tc hchain hclose

/-- Witness for C8: three operations 5 seconds apart with the channel
closing 2 seconds after the last one produce no auto commit, only the
terminal commit at close. -/
theorem C8_writer_commit_policy_witness :
    writerRun [0, 5, 10] 12 = [Commit.final 12] :=
  C8_writer_commit_policy.2.2 [0, 5, 10] 12
    (by simp [List.chain'_cons, AUTO_COMMIT_SECS])
    (by intro s hs; fin_cases hs <;> simp [AUTO_COMMIT_SECS])

end Cronos
